import Mathlib

/-!
Verification of the settings-resolver / conversion-cache core of a
Streamlit GIF converter (src/app.py).

Modelling conventions (shallow embedding):
* Python strings are lists of characters (PyStr), Python bytes are lists
  of naturals (Bytes), Python dicts are association lists where an
  assignment prepends a shadowing binding and lookups see the latest one.
* Decimal rendering of a nonnegative int inside an f-string is natToDec.
* The external tools (ffmpeg, gifsicle) and the file system are modelled
  by an oracle record ExtEnv giving the outcome of each delegated
  invocation, and by an association list FS from paths to file contents.
-/

namespace GifApp

/-- Python strings, modelled as lists of characters. -/
abbrev PyStr := List Char

/-- Python bytes payloads, modelled as lists of naturals. -/
abbrev Bytes := List Nat

/-- The character a decimal digit renders to, as in Python str(int). -/
def digitChar (d : Nat) : Char :=
  match d with
  | 0 => '0' | 1 => '1' | 2 => '2' | 3 => '3' | 4 => '4'
  | 5 => '5' | 6 => '6' | 7 => '7' | 8 => '8' | 9 => '9'
  | _ => '*'

/-- Decimal rendering of a nonnegative integer, as in a Python f-string. -/
def natToDec (n : Nat) : PyStr :=
  if _h : n < 10 then [digitChar n]
  else natToDec (n / 10) ++ [digitChar (n % 10)]
termination_by n
decreasing_by
  exact Nat.div_lt_self (by omega) (by omega)

/-- Numeric value of a digit character (inverse of digitChar below 10). -/
def digitVal (c : Char) : Nat :=
  match c with
  | '0' => 0 | '1' => 1 | '2' => 2 | '3' => 3 | '4' => 4
  | '5' => 5 | '6' => 6 | '7' => 7 | '8' => 8 | '9' => 9
  | _ => 0

/-- Value of a digit string read left to right. -/
def decVal (cs : PyStr) : Nat :=
  cs.foldl (fun a c => 10 * a + digitVal c) 0

/-- Python dict lookup on an association list (latest binding wins). -/
def alookup {α : Type} : List (PyStr × α) → PyStr → Option α
  | [], _ => none
  | (k, v) :: t, key => if k = key then some v else alookup t key

/-- Python dict assignment: a shadowing binding is prepended. -/
def ainsert {α : Type} (l : List (PyStr × α)) (k : PyStr) (v : α) : List (PyStr × α) :=
  (k, v) :: l

/-- The global settings record, st.session_state global_settings
(src/app.py line 424): fps, width, dither, compress. -/
structure Settings where
  fps : Nat
  width : Nat
  dither : PyStr
  compress : PyStr
deriving DecidableEq

/-- A per-file override: the sparse dict stored in
st.session_state video_settings for one video id; only explicitly set
fields are present (src/app.py lines 296-299). -/
structure Override where
  fps : Option Nat := none
  width : Option Nat := none
  dither : Option PyStr := none
  compress : Option PyStr := none
deriving DecidableEq

/-- get_effective_settings (src/app.py lines 286-294): every field is the
per-file override value when present, the global value otherwise.  The
result record has exactly the four fields fps, width, dither, compress. -/
def get_effective_settings (global_settings : Settings)
    (video_settings : List (PyStr × Override)) (video_id : PyStr) : Settings :=
  let v := (alookup video_settings video_id).getD {}
  { fps := v.fps.getD global_settings.fps
    width := v.width.getD global_settings.width
    dither := v.dither.getD global_settings.dither
    compress := v.compress.getD global_settings.compress }

/-- get_preview_cache_key (src/app.py lines 280-281):
the f-string preview_{id}_{fps}_{width}_{dither}_{compress}_5. -/
def get_preview_cache_key (video_id : PyStr) (fps width : Nat)
    (dither compress : PyStr) : PyStr :=
  "preview_".data ++ video_id ++
    '_' :: (natToDec fps ++
      '_' :: (natToDec width ++
        '_' :: (dither ++ '_' :: (compress ++ "_5".data))))

/-- get_final_cache_key (src/app.py lines 283-284):
the f-string final_{id}_{fps}_{width}_{dither}_{compress}. -/
def get_final_cache_key (video_id : PyStr) (fps width : Nat)
    (dither compress : PyStr) : PyStr :=
  "final_".data ++ video_id ++
    '_' :: (natToDec fps ++
      '_' :: (natToDec width ++
        '_' :: (dither ++ '_' :: compress)))

/-- The session state fields the claims are about (src/app.py 421-432). -/
structure AppState where
  global_settings : Settings
  video_settings : List (PyStr × Override)
  preview_cache : List (PyStr × Bytes)
  final_cache : List (PyStr × Bytes)
  zip_all_bytes : Option Bytes := none
deriving DecidableEq

/-- One call of update_video_setting with one of the four settings keys
fps, width, dither, compress and the corresponding value.  (For these four
keys the purge branch of the source always runs.) -/
inductive FieldUpdate where
  | fps (n : Nat)
  | width (n : Nat)
  | dither (d : PyStr)
  | compress (c : PyStr)
deriving DecidableEq

/-- The dict assignment video_settings[video_id][key] = value. -/
def Override.put (o : Override) : FieldUpdate → Override
  | .fps n => { o with fps := some n }
  | .width n => { o with width := some n }
  | .dither d => { o with dither := some d }
  | .compress c => { o with compress := some c }

/-- The override record maps the updated key to the updated value. -/
def FieldUpdate.recorded : FieldUpdate → Override → Prop
  | .fps n, o => o.fps = some n
  | .width n, o => o.width = some n
  | .dither d, o => o.dither = some d
  | .compress c, o => o.compress = some c

/-- update_video_setting (src/app.py lines 296-308): insert or update one
override field, then delete every preview-cache entry whose key starts
with preview_{video_id}_ and every final-cache entry whose key starts
with final_{video_id}_, and reset zip_all_bytes. -/
def update_video_setting (s : AppState) (video_id : PyStr) (u : FieldUpdate) : AppState :=
  let cur := (alookup s.video_settings video_id).getD {}
  { s with
    video_settings := ainsert s.video_settings video_id (cur.put u)
    preview_cache := s.preview_cache.filter
      (fun kv => decide (¬ ("preview_".data ++ video_id ++ ['_']) <+: kv.1))
    final_cache := s.final_cache.filter
      (fun kv => decide (¬ ("final_".data ++ video_id ++ ['_']) <+: kv.1))
    zip_all_bytes := none }

/-- Outcome of one delegation to the external transcoder: output bytes or
a descriptive failure. -/
inductive ConvResult where
  | ok (bytes : Bytes)
  | fail (msg : PyStr)
deriving DecidableEq

/-- The inline conversion-cache pattern repeated at src/app.py lines
708-772 (preview_cache) and 787-841 (final_cache): if the key is present
return the stored bytes without invoking the conversion, otherwise invoke
it once, store the bytes on success and store nothing on failure.  The
third component counts how many times the conversion was invoked. -/
def get_or_compute (cache : List (PyStr × Bytes)) (key : PyStr) (r : ConvResult) :
    List (PyStr × Bytes) × Except PyStr Bytes × Nat :=
  match alookup cache key with
  | some b => (cache, Except.ok b, 0)
  | none =>
    match r with
    | .ok b => (ainsert cache key b, Except.ok b, 1)
    | .fail m => (cache, Except.error m, 1)

instance {ε α : Type} [DecidableEq ε] [DecidableEq α] : DecidableEq (Except ε α) := fun a b =>
  match a, b with
  | .ok x, .ok y =>
    if h : x = y then isTrue (h ▸ rfl) else isFalse (fun hh => h (Except.ok.inj hh))
  | .ok _, .error _ => isFalse (fun hh => Except.noConfusion hh)
  | .error _, .ok _ => isFalse (fun hh => Except.noConfusion hh)
  | .error x, .error y =>
    if h : x = y then isTrue (h ▸ rfl) else isFalse (fun hh => h (Except.error.inj hh))

/-- File system: paths mapped to file contents. -/
abbrev FS := List (PyStr × Bytes)

def fsGet (fs : FS) (p : PyStr) : Option Bytes := alookup fs p

def fsPut (fs : FS) (p : PyStr) (b : Bytes) : FS := ainsert fs p b

def fsRemove (fs : FS) (p : PyStr) : FS :=
  fs.filter (fun kv => decide (¬ kv.1 = p))

/-- One row of _COMPRESS_PRESETS (src/app.py lines 50-55). -/
structure Preset where
  colors : Nat
  opt : Nat
deriving DecidableEq

def compressPresets : List (PyStr × Preset) :=
  [("保守".data, ⟨256, 1⟩), ("平衡".data, ⟨200, 2⟩),
   ("強化".data, ⟨128, 3⟩), ("激進".data, ⟨64, 3⟩)]

/-- _COMPRESS_PRESETS.get(level, _COMPRESS_PRESETS of 平衡). -/
def getPreset (compress_level : PyStr) : Preset :=
  (alookup compressPresets compress_level).getD ⟨200, 2⟩

/-- Oracle for the external world: availability of the two tools and the
outcome of each delegated invocation inside one conversion call.
palette1/palette2 are the two palettegen attempts, gifRun the encoding
run, gifsicleRun the optimizer run; gifsicleOut is the content the
optimizer run leaves at its output path, if it produces that file.
An external command is assumed to write only its designated output file. -/
structure ExtEnv where
  hasFfmpeg : Bool
  hasGifsicle : Bool
  palette1 : Bool × PyStr
  palette2 : Bool × PyStr
  paletteBytes : Bytes
  gifRun : Bool × PyStr
  gifBytes : Bytes
  gifsicleRun : Bool × PyStr
  gifsicleOut : Option Bytes
deriving DecidableEq

/-- gifsicle_optimize (src/app.py lines 57-73): skip silently when the
optimizer is absent; otherwise run it towards tmp_out = gif_path +
".opt.gif" and, when the run exited ok and a file exists at tmp_out,
move tmp_out onto gif_path (os.replace).  Every failure is swallowed, so
the function always returns normally. -/
def gifsicle_optimize (env : ExtEnv) (fs : FS) (gif_path : PyStr)
    (compress_level : PyStr) : FS :=
  if env.hasGifsicle = false then fs
  else
    let _preset := getPreset compress_level
    let tmp_out := gif_path ++ ".opt.gif".data
    let fs1 := match env.gifsicleOut with
      | some b => fsPut fs tmp_out b
      | none => fs
    if env.gifsicleRun.1 && (fsGet fs1 tmp_out).isSome then
      fsPut (fsRemove fs1 tmp_out) gif_path ((fsGet fs1 tmp_out).getD [])
    else fs1

/-- The message returned by safe_convert and reencode_gif when ffmpeg is
absent (src/app.py lines 148 and 215). -/
def ffmpegMissingMsg : PyStr := "系統未找到 ffmpeg，請先安裝後再試。".data

/-- The dither-name mapping applied before delegation (src/app.py lines
167-174 and 241-248): a dict lookup with default "bayer", so "none" and
every unrecognized selection are sent to the tool as "bayer". -/
def dither_final (dither : PyStr) : PyStr :=
  if dither = "none".data then "bayer".data
  else if dither = "bayer".data then "bayer".data
  else if dither = "sierra2_4a".data then "sierra2_4a".data
  else if dither = "floyd_steinberg".data then "floyd_steinberg".data
  else if dither = "sierra2".data then "sierra2".data
  else "bayer".data

/-- Python truthiness of trim_sec combined with trim_sec > 0. -/
def isTrim : Option Nat → Bool
  | some t => decide (0 < t)
  | none => false

/-- The common video-filter string of safe_convert (src/app.py line 154). -/
def vf_common_mp4 (fps target_width : Nat) : PyStr :=
  "fps=".data ++ natToDec fps ++ ",scale=".data ++ natToDec target_width ++
    ":-2:flags=lanczos".data

def joinComma : List PyStr → PyStr
  | [] => []
  | [x] => x
  | x :: xs => x ++ ',' :: joinComma xs

/-- The filter chain of reencode_gif (src/app.py lines 221-226): parts are
included only for positive fps / width, with a fixed fallback. -/
def vf_common_gif (fps target_width : Nat) : PyStr :=
  let parts :=
    (if 0 < fps then ["fps=".data ++ natToDec fps] else []) ++
    (if 0 < target_width then
      ["scale=".data ++ natToDec target_width ++ ":-2:flags=lanczos".data] else [])
  if parts = [] then "fps=10,scale=800:-2:flags=lanczos".data else joinComma parts

/-- The encode argv of safe_convert / reencode_gif (src/app.py lines
177-187 and 251-261), with the mapped dither value spliced into the
-lavfi argument. -/
def gif_cmd (src palette_path out_gif : PyStr) (vf df : PyStr)
    (trim_sec : Option Nat) : List PyStr :=
  let core := ["-i".data, src, "-i".data, palette_path, "-lavfi".data,
    vf ++ "[x];[x][1:v]paletteuse=dither=".data ++ df,
    "-gifflags".data, "+transdiff".data, "-an".data, "-hide_banner".data, out_gif]
  if isTrim trim_sec then
    "ffmpeg".data :: "-y".data :: "-t".data :: natToDec (trim_sec.getD 0) :: core
  else
    "ffmpeg".data :: "-y".data :: core

/-- Result of one conversion call: the (success, message) pair the caller
receives, the file system afterwards, and — recorded for verification —
the encode argv actually delegated and the dither value spliced into it
(none when the call returned before reaching the encode step). -/
structure ConvOut where
  ok : Bool
  msg : PyStr
  fs : FS
  gifCmd : Option (List PyStr)
  ditherUsed : Option PyStr
deriving DecidableEq

/-- safe_convert (src/app.py lines 137-202): fail fast when ffmpeg is
absent; generate the palette (with one retry); map the dither name; run
the encode; remove the palette file; on success run gifsicle_optimize.
Output files appear per the oracle; the palette file is written once the
palette step succeeded. -/
def safe_convert (env : ExtEnv) (fs : FS) (src_mp4 out_gif : PyStr)
    (fps target_width : Nat) (dither : PyStr) (trim_sec : Option Nat)
    (compress : PyStr) : ConvOut :=
  if env.hasFfmpeg = false then ⟨false, ffmpegMissingMsg, fs, none, none⟩
  else
    let _preset := getPreset compress
    let palette_path := out_gif ++ ".palette.png".data
    let vf := vf_common_mp4 fps target_width
    if (env.palette1.1 || env.palette2.1) = false then
      ⟨false, "palette 生成失敗：".data ++
        (if env.palette2.2 = [] then env.palette1.2 else env.palette2.2),
        fs, none, none⟩
    else
      let fs1 := fsPut fs palette_path env.paletteBytes
      let df := dither_final dither
      let cmd := gif_cmd src_mp4 palette_path out_gif vf df trim_sec
      let fs2 := if env.gifRun.1 then fsPut fs1 out_gif env.gifBytes else fs1
      let fs3 := fsRemove fs2 palette_path
      if env.gifRun.1 = false then
        ⟨false, "GIF 轉檔失敗：".data ++ env.gifRun.2, fs3, some cmd, some df⟩
      else
        ⟨true, [], gifsicle_optimize env fs3 out_gif compress, some cmd, some df⟩

/-- reencode_gif (src/app.py lines 204-275): same structure as
safe_convert with the part-wise filter chain and its own failure text. -/
def reencode_gif (env : ExtEnv) (fs : FS) (src_gif out_gif : PyStr)
    (fps target_width : Nat) (dither : PyStr) (trim_sec : Option Nat)
    (compress : PyStr) : ConvOut :=
  if env.hasFfmpeg = false then ⟨false, ffmpegMissingMsg, fs, none, none⟩
  else
    let _preset := getPreset compress
    let palette_path := out_gif ++ ".palette.png".data
    let vf := vf_common_gif fps target_width
    if (env.palette1.1 || env.palette2.1) = false then
      ⟨false, "palette 生成失敗：".data ++
        (if env.palette2.2 = [] then env.palette1.2 else env.palette2.2),
        fs, none, none⟩
    else
      let fs1 := fsPut fs palette_path env.paletteBytes
      let df := dither_final dither
      let cmd := gif_cmd src_gif palette_path out_gif vf df trim_sec
      let fs2 := if env.gifRun.1 then fsPut fs1 out_gif env.gifBytes else fs1
      let fs3 := fsRemove fs2 palette_path
      if env.gifRun.1 = false then
        ⟨false, "GIF 重編碼失敗：".data ++ env.gifRun.2, fs3, some cmd, some df⟩
      else
        ⟨true, [], gifsicle_optimize env fs3 out_gif compress, some cmd, some df⟩

/-- Modelled from the spec: src/app.py contains no broadcast / apply-to-all
operation; spec section 4.1 defines broadcast(source_identity,
target_identities) as copying the effective settings of the source into
the override record of every target, overwriting any existing override. -/
def broadcast (global_settings : Settings) (video_settings : List (PyStr × Override))
    (source : PyStr) (targets : List PyStr) : List (PyStr × Override) :=
  let eff := get_effective_settings global_settings video_settings source
  targets.foldl
    (fun acc t =>
      ainsert acc t ⟨some eff.fps, some eff.width, some eff.dither, some eff.compress⟩)
    video_settings

/-- The five dither selections named by the mapping dict (src/app.py
lines 168-173). -/
def validDithers : List PyStr :=
  ["none".data, "bayer".data, "sierra2_4a".data, "floyd_steinberg".data,
   "sierra2".data]

/-- The width adjustment applied before key computation and conversion
(src/app.py lines 518, 575, 693): force an even width. -/
def width_even (w : Nat) : Nat := if w % 2 = 0 then w else w - 1

/-- Path(name).stem: the file name without its last extension; an
extension needs a dot that is neither leading nor trailing. -/
def stem (name : PyStr) : PyStr :=
  match name.reverse.findIdx? (fun c => c == '.') with
  | none => name
  | some j =>
    let i := name.length - 1 - j
    if 0 < i ∧ i < name.length - 1 then name.take i else name

/-- An uploaded file: its name, and its identity vid =
generate_video_id(name) (src/app.py lines 277-278; the md5 hex digest is
delegated to hashlib and carried here as given data). -/
structure UpFile where
  name : PyStr
  vid : PyStr
deriving DecidableEq

/-- The final-cache key the packing loop computes for one uploaded file
from its current effective settings (src/app.py lines 574-576). -/
def fileFinalKey (g : Settings) (vs : List (PyStr × Override)) (f : UpFile) : PyStr :=
  let eff := get_effective_settings g vs f.vid
  get_final_cache_key f.vid eff.fps (width_even eff.width) eff.dither eff.compress

/-- The all_gifs list of the packing loop (src/app.py lines 571-581): one
entry, named stem + ".gif" and carrying the cached bytes, for each
uploaded file whose final key is in the cache. -/
def zip_all_entries (g : Settings) (vs : List (PyStr × Override))
    (final_cache : List (PyStr × Bytes)) (files : List UpFile) : List (PyStr × Bytes) :=
  files.filterMap (fun f =>
    (alookup final_cache (fileFinalKey g vs f)).map
      (fun b => (stem f.name ++ ".gif".data, b)))

/-- The archive written to st.session_state zip_all_bytes (src/app.py
lines 582-590), modelled as its ordered entry list (the ZIP byte encoding
is a stdlib collaborator); none when there is nothing to pack. -/
def build_zip_all_bytes (g : Settings) (vs : List (PyStr × Override))
    (final_cache : List (PyStr × Bytes)) (files : List UpFile) :
    Option (List (PyStr × Bytes)) :=
  let all_gifs := zip_all_entries g vs final_cache files
  if all_gifs.isEmpty then none else some all_gifs

theorem digitChar_ne_us (d : Nat) : digitChar d ≠ '_' := by
  unfold digitChar
  split <;> decide

theorem digitVal_digitChar (d : Nat) (h : d < 10) : digitVal (digitChar d) = d := by
  interval_cases d <;> decide

theorem decVal_snoc (xs : PyStr) (c : Char) :
    decVal (xs ++ [c]) = 10 * decVal xs + digitVal c := by
  simp [decVal, List.foldl_append]

theorem decVal_natToDec (n : Nat) : decVal (natToDec n) = n := by
  induction n using Nat.strong_induction_on with
  | _ n ih =>
    unfold natToDec
    split
    · next h =>
      simp [decVal, digitVal_digitChar _ h]
    · next h =>
      rw [decVal_snoc, ih (n / 10) (Nat.div_lt_self (by omega) (by omega)),
        digitVal_digitChar _ (Nat.mod_lt _ (by omega))]
      omega

theorem natToDec_injective {m n : Nat} (h : natToDec m = natToDec n) : m = n := by
  have := congrArg decVal h
  simpa [decVal_natToDec] using this

theorem natToDec_no_us (n : Nat) : '_' ∉ natToDec n := by
  induction n using Nat.strong_induction_on with
  | _ n ih =>
    unfold natToDec
    split
    · next h =>
      intro hc
      rcases List.mem_singleton.mp hc with h0
      exact digitChar_ne_us n h0.symm
    · next h =>
      intro hc
      rcases List.mem_append.mp hc with h1 | h2
      · exact ih (n / 10) (Nat.div_lt_self (by omega) (by omega)) h1
      · exact digitChar_ne_us (n % 10) (List.mem_singleton.mp h2).symm

theorem alookup_ainsert_self {α : Type} (l : List (PyStr × α)) (k : PyStr) (v : α) :
    alookup (ainsert l k v) k = some v := by
  simp [ainsert, alookup]

theorem alookup_ainsert_ne {α : Type} (l : List (PyStr × α)) (k k' : PyStr) (v : α)
    (h : k ≠ k') : alookup (ainsert l k v) k' = alookup l k' := by
  simp [ainsert, alookup, h]

/-- Splitting at the first separator: if neither side of the separator can
contain an underscore, an underscore-separated concatenation determines
both halves. -/
theorem sepSplit {a a' x x' : PyStr} (ha : '_' ∉ a) (ha' : '_' ∉ a')
    (h : a ++ '_' :: x = a' ++ '_' :: x') : a = a' ∧ x = x' := by
  induction a generalizing a' with
  | nil =>
    cases a' with
    | nil => simpa using h
    | cons b t =>
      simp only [List.nil_append, List.cons_append, List.cons.injEq] at h
      exact absurd (List.mem_cons_self b t) (h.1 ▸ ha')
  | cons b t ih =>
    cases a' with
    | nil =>
      simp only [List.nil_append, List.cons_append, List.cons.injEq] at h
      exact absurd (List.mem_cons_self b t) (h.1.symm ▸ ha)
    | cons b' t' =>
      simp only [List.cons_append, List.cons.injEq] at h
      obtain ⟨rfl, h2⟩ := h
      have ht : '_' ∉ t := fun hm => ha (List.mem_cons_of_mem _ hm)
      have ht' : '_' ∉ t' := fun hm => ha' (List.mem_cons_of_mem _ hm)
      obtain ⟨rfl, rfl⟩ := ih ht ht' h2
      exact ⟨rfl, rfl⟩

/-- Splitting at the last separator: the trailing components are
underscore-free, so they are determined. -/
theorem sepSplitR {x x' c c' : PyStr} (hc : '_' ∉ c) (hc' : '_' ∉ c')
    (h : x ++ '_' :: c = x' ++ '_' :: c') : x = x' ∧ c = c' := by
  have h' : c.reverse ++ '_' :: x.reverse = c'.reverse ++ '_' :: x'.reverse := by
    have := congrArg List.reverse h
    simpa [List.reverse_append, List.append_assoc] using this
  have hcr : '_' ∉ c.reverse := by simpa using hc
  have hcr' : '_' ∉ c'.reverse := by simpa using hc'
  obtain ⟨h1, h2⟩ := sepSplit hcr hcr' h'
  exact ⟨List.reverse_injective h2, List.reverse_injective h1⟩

/-- A list is never equal to itself followed by a nonempty tail. -/
theorem self_ne_append (p : PyStr) (c : Char) (t : PyStr) : p ≠ p ++ c :: t := by
  intro h
  have := congrArg List.length h
  simp at this

theorem resolve_full (g : Settings) (vs : List (PyStr × Override)) (t : PyStr)
    (a b : Nat) (c d : PyStr)
    (h : alookup vs t = some ⟨some a, some b, some c, some d⟩) :
    get_effective_settings g vs t = ⟨a, b, c, d⟩ := by
  simp [get_effective_settings, h]

theorem alookup_foldl_ainsert_const {α : Type} (o : α) (targets : List PyStr)
    (vs : List (PyStr × α)) (t : PyStr) :
    alookup (targets.foldl (fun acc u => ainsert acc u o) vs) t =
      if t ∈ targets then some o else alookup vs t := by
  induction targets generalizing vs with
  | nil => simp
  | cons hd tl ih =>
    simp only [List.foldl_cons]
    rw [ih]
    by_cases ht : t ∈ tl
    · simp [ht]
    · by_cases hth : t = hd
      · subst hth
        simp [ht, alookup_ainsert_self]
      · simp [ht, hth, List.mem_cons,
          alookup_ainsert_ne _ _ _ _ (fun hh => hth hh.symm)]

/-- C1: for every file identity, get_effective_settings returns the record
with exactly the fields fps, width, dither, compress, each equal to the
per-file override value when present and to the current global value
otherwise; a file with no override entry resolves to the current global
settings whatever they are, and an override of exactly a width w resolves
to the global record with only the width replaced. -/
theorem C1_effective_settings (g : Settings) (vs : List (PyStr × Override))
    (vid : PyStr) :
    (∀ o, alookup vs vid = some o →
        (get_effective_settings g vs vid).fps = o.fps.getD g.fps ∧
        (get_effective_settings g vs vid).width = o.width.getD g.width ∧
        (get_effective_settings g vs vid).dither = o.dither.getD g.dither ∧
        (get_effective_settings g vs vid).compress = o.compress.getD g.compress) ∧
    (alookup vs vid = none → get_effective_settings g vs vid = g) ∧
    (∀ w, alookup vs vid = some ⟨none, some w, none, none⟩ →
        get_effective_settings g vs vid = ⟨g.fps, w, g.dither, g.compress⟩) := by
  refine ⟨fun o ho => ?_, fun hn => ?_, fun w hw => ?_⟩
  · simp [get_effective_settings, ho]
  · simp [get_effective_settings, hn]
  · simp [get_effective_settings, hw]

/-- Witness for C1 at a concrete input: a file with no override entry
resolves to the current global settings. -/
theorem C1_effective_settings_witness :
    get_effective_settings ⟨10, 800, "bayer".data, "平衡".data⟩ [] "abcdef012345".data =
      ⟨10, 800, "bayer".data, "平衡".data⟩ :=
  (C1_effective_settings ⟨10, 800, "bayer".data, "平衡".data⟩ [] "abcdef012345".data).2.1 rfl

/-- C2: the conversion cache memoizes.  If the key is present the
conversion is not invoked (count 0), the stored bytes come back and the
cache is unchanged; and after any successful call, a second call with the
same key and the resulting cache returns the identical bytes without
invoking the conversion, so the conversion runs at most once per key
while the entry remains cached. -/
theorem C2_cache_memoizes (cache : List (PyStr × Bytes)) (key : PyStr)
    (r : ConvResult) :
    (∀ b, alookup cache key = some b →
        get_or_compute cache key r = (cache, Except.ok b, 0)) ∧
    (∀ c₁ b n₁, get_or_compute cache key r = (c₁, Except.ok b, n₁) →
        n₁ ≤ 1 ∧ ∀ r', get_or_compute c₁ key r' = (c₁, Except.ok b, 0)) := by
  constructor
  · intro b hb
    simp [get_or_compute, hb]
  · intro c₁ b n₁ h
    cases hb : alookup cache key with
    | some b₀ =>
      simp only [get_or_compute, hb, Prod.mk.injEq] at h
      obtain ⟨rfl, h2, rfl⟩ := h
      obtain rfl := Except.ok.inj h2
      refine ⟨by omega, fun r' => ?_⟩
      simp [get_or_compute, hb]
    | none =>
      cases r with
      | ok bb =>
        simp only [get_or_compute, hb, Prod.mk.injEq] at h
        obtain ⟨rfl, h2, rfl⟩ := h
        obtain rfl := Except.ok.inj h2
        refine ⟨le_refl 1, fun r' => ?_⟩
        simp [get_or_compute, alookup_ainsert_self]
      | fail m =>
        simp [get_or_compute, hb] at h

/-- Witness for C2 at a concrete input: a key already cached with bytes
comes back unchanged with zero invocations. -/
theorem C2_cache_memoizes_witness :
    get_or_compute [("k".data, [7])] "k".data (.ok [9]) =
      ([("k".data, [7])], Except.ok [7], 0) :=
  (C2_cache_memoizes [("k".data, [7])] "k".data (.ok [9])).1 [7] (by decide)

/-- C5 (spec-modelled): broadcast copies the effective settings of the
source into the override record of every target, overwriting any existing
override, so afterwards every target resolves to what the source resolved
to immediately before the broadcast. -/
theorem C5_broadcast (g : Settings) (vs : List (PyStr × Override))
    (src : PyStr) (targets : List PyStr) :
    ∀ t ∈ targets,
      get_effective_settings g (broadcast g vs src targets) t =
        get_effective_settings g vs src := by
  intro t ht
  have hl : alookup (broadcast g vs src targets) t =
      some ⟨some (get_effective_settings g vs src).fps,
            some (get_effective_settings g vs src).width,
            some (get_effective_settings g vs src).dither,
            some (get_effective_settings g vs src).compress⟩ := by
    unfold broadcast
    rw [alookup_foldl_ainsert_const]
    simp [ht]
  rw [resolve_full g _ t _ _ _ _ hl]

/-- Witness for C5 at a concrete input: broadcast from a to b and c makes
b resolve to what a resolved to before. -/
theorem C5_broadcast_witness :
    get_effective_settings ⟨10, 800, "bayer".data, "平衡".data⟩
        (broadcast ⟨10, 800, "bayer".data, "平衡".data⟩
          [("a1".data, ⟨some 5, none, none, none⟩)] "a1".data
          ["b2".data, "c3".data]) "b2".data =
      get_effective_settings ⟨10, 800, "bayer".data, "平衡".data⟩
        [("a1".data, ⟨some 5, none, none, none⟩)] "a1".data :=
  C5_broadcast ⟨10, 800, "bayer".data, "平衡".data⟩
    [("a1".data, ⟨some 5, none, none, none⟩)] "a1".data
    ["b2".data, "c3".data] "b2".data (by decide)

/-- C6: when the conversion fails the cache stores nothing for the key,
the caller receives the failure reason, a subsequent request with the
same key invokes the conversion again (no negative caching), and when
ffmpeg is absent the conversion result is a failure whose message names
the missing tool. -/
theorem C6_failure_not_cached (cache : List (PyStr × Bytes)) (key : PyStr)
    (m : PyStr) (hnone : alookup cache key = none) :
    get_or_compute cache key (.fail m) = (cache, Except.error m, 1) ∧
    (∀ r', (get_or_compute cache key r').2.2 = 1) ∧
    (∀ env fs src out fps w d t c, env.hasFfmpeg = false →
        (safe_convert env fs src out fps w d t c).ok = false ∧
        (safe_convert env fs src out fps w d t c).msg = ffmpegMissingMsg) ∧
    "ffmpeg".data <:+: ffmpegMissingMsg := by
  refine ⟨by simp [get_or_compute, hnone], fun r' => ?_, fun env fs src out fps w d t c hf => ?_, by decide⟩
  · cases r' <;> simp [get_or_compute, hnone]
  · simp [safe_convert, hf]

/-- Witness for C6 at a concrete input: a failing conversion on an absent
key leaves the cache empty, reports the reason, and counts one
invocation. -/
theorem C6_failure_not_cached_witness :
    get_or_compute [] "k".data (.fail "boom".data) =
      ([], Except.error "boom".data, 1) :=
  (C6_failure_not_cached [] "k".data "boom".data rfl).1

theorem keyCore_inj {v v' : PyStr} {f f' w w' : Nat} {d d' r r' : PyStr}
    (hv : '_' ∉ v) (hv' : '_' ∉ v')
    (h : v ++ '_' :: (natToDec f ++ '_' :: (natToDec w ++ '_' :: (d ++ '_' :: r))) =
         v' ++ '_' :: (natToDec f' ++ '_' :: (natToDec w' ++ '_' :: (d' ++ '_' :: r')))) :
    v = v' ∧ f = f' ∧ w = w' ∧ d ++ '_' :: r = d' ++ '_' :: r' := by
  obtain ⟨h1, h2⟩ := sepSplit hv hv' h
  obtain ⟨h3, h4⟩ := sepSplit (natToDec_no_us f) (natToDec_no_us f') h2
  obtain ⟨h5, h6⟩ := sepSplit (natToDec_no_us w) (natToDec_no_us w') h4
  exact ⟨h1, natToDec_injective h3, natToDec_injective h5, h6⟩

/-- C3: the two cache-key functions are deterministic and injective on the
settings domain — file identities are hex digests without underscores and
compression levels contain no underscore — so two calls agree exactly
when every argument agrees, and changing any single field changes the
key. -/
theorem C3_key_injective (v v' : PyStr) (f f' w w' : Nat) (d d' c c' : PyStr)
    (hv : '_' ∉ v) (hv' : '_' ∉ v') (hc : '_' ∉ c) (hc' : '_' ∉ c') :
    (get_final_cache_key v f w d c = get_final_cache_key v' f' w' d' c' ↔
      v = v' ∧ f = f' ∧ w = w' ∧ d = d' ∧ c = c') ∧
    (get_preview_cache_key v f w d c = get_preview_cache_key v' f' w' d' c' ↔
      v = v' ∧ f = f' ∧ w = w' ∧ d = d' ∧ c = c') := by
  constructor
  · constructor
    · intro h
      unfold get_final_cache_key at h
      simp only [List.append_assoc] at h
      have h0 : v ++ '_' :: (natToDec f ++ '_' :: (natToDec w ++ '_' :: (d ++ '_' :: c))) =
          v' ++ '_' :: (natToDec f' ++ '_' :: (natToDec w' ++ '_' :: (d' ++ '_' :: c'))) :=
        List.append_cancel_left h
      obtain ⟨h1, h2, h3, h4⟩ := keyCore_inj hv hv' h0
      obtain ⟨h5, h6⟩ := sepSplitR hc hc' h4
      exact ⟨h1, h2, h3, h5, h6⟩
    · rintro ⟨rfl, rfl, rfl, rfl, rfl⟩
      rfl
  · constructor
    · intro h
      unfold get_preview_cache_key at h
      simp only [List.append_assoc] at h
      have h0 : v ++ '_' :: (natToDec f ++ '_' :: (natToDec w ++ '_' :: (d ++ '_' :: (c ++ "_5".data)))) =
          v' ++ '_' :: (natToDec f' ++ '_' :: (natToDec w' ++ '_' :: (d' ++ '_' :: (c' ++ "_5".data)))) :=
        List.append_cancel_left h
      obtain ⟨h1, h2, h3, h4⟩ := keyCore_inj hv hv' h0
      have h4' : (d ++ '_' :: c) ++ '_' :: ['5'] = (d' ++ '_' :: c') ++ '_' :: ['5'] := by
        simpa [List.append_assoc] using h4
      obtain ⟨h5, _⟩ := sepSplitR (show '_' ∉ ['5'] by decide) (by decide) h4'
      obtain ⟨h6, h7⟩ := sepSplitR hc hc' h5
      exact ⟨h1, h2, h3, h6, h7⟩
    · rintro ⟨rfl, rfl, rfl, rfl, rfl⟩
      rfl

/-- Witness for C3 at concrete inputs: the key equivalence instantiated
for two hex file identities and underscore-free compression levels. -/
theorem C3_key_injective_witness :
    (get_final_cache_key "ab".data 1 2 "sierra2_4a".data "平衡".data =
        get_final_cache_key "ab".data 1 2 "sierra2".data "4a.平衡".data ↔
      "ab".data = "ab".data ∧ 1 = 1 ∧ 2 = 2 ∧
        "sierra2_4a".data = "sierra2".data ∧ "平衡".data = "4a.平衡".data) ∧
    (get_preview_cache_key "ab".data 1 2 "sierra2_4a".data "平衡".data =
        get_preview_cache_key "ab".data 1 2 "sierra2".data "4a.平衡".data ↔
      "ab".data = "ab".data ∧ 1 = 1 ∧ 2 = 2 ∧
        "sierra2_4a".data = "sierra2".data ∧ "平衡".data = "4a.平衡".data) :=
  C3_key_injective "ab".data "ab".data 1 1 2 2 "sierra2_4a".data "sierra2".data
    "平衡".data "4a.平衡".data (by decide) (by decide) (by decide) (by decide)

theorem purge_other_vid {p v v' r : PyStr} (hv : '_' ∉ v) (hv' : '_' ∉ v')
    (hne : v' ≠ v) : ¬ (p ++ v ++ ['_']) <+: (p ++ v' ++ '_' :: r) := by
  rintro ⟨t, ht⟩
  simp only [List.append_assoc, List.singleton_append] at ht
  have ht' : v ++ '_' :: t = v' ++ '_' :: r := List.append_cancel_left ht
  exact hne (sepSplit hv hv' ht').1.symm

/-- C4: after update_video_setting on one of the four settings fields, the
override record for that file carries the new value, no preview- or
final-cache entry keyed with that file identity remains, and every cache
entry carrying a different file identity is untouched. -/
theorem C4_update_selective (s : AppState) (vid : PyStr) (u : FieldUpdate)
    (hv : '_' ∉ vid) :
    (∃ o, alookup (update_video_setting s vid u).video_settings vid = some o ∧
        u.recorded o) ∧
    (∀ kv ∈ (update_video_setting s vid u).preview_cache,
        ¬ ("preview_".data ++ vid ++ ['_']) <+: kv.1) ∧
    (∀ kv ∈ (update_video_setting s vid u).final_cache,
        ¬ ("final_".data ++ vid ++ ['_']) <+: kv.1) ∧
    (∀ v' r b, '_' ∉ v' → v' ≠ vid →
        ((("preview_".data ++ v' ++ '_' :: r, b) ∈
            (update_video_setting s vid u).preview_cache) ↔
          (("preview_".data ++ v' ++ '_' :: r, b) ∈ s.preview_cache)) ∧
        ((("final_".data ++ v' ++ '_' :: r, b) ∈
            (update_video_setting s vid u).final_cache) ↔
          (("final_".data ++ v' ++ '_' :: r, b) ∈ s.final_cache))) := by
  refine ⟨⟨((alookup s.video_settings vid).getD {}).put u, ?_, ?_⟩, ?_, ?_, ?_⟩
  · simp [update_video_setting, alookup_ainsert_self]
  · cases u <;> simp [FieldUpdate.recorded, Override.put]
  · intro kv hkv
    simp only [update_video_setting, List.mem_filter, decide_eq_true_eq] at hkv
    exact hkv.2
  · intro kv hkv
    simp only [update_video_setting, List.mem_filter, decide_eq_true_eq] at hkv
    exact hkv.2
  · intro v' r b hv' hne
    constructor
    · simp only [update_video_setting, List.mem_filter, decide_eq_true_eq]
      exact ⟨fun h => h.1, fun h => ⟨h, purge_other_vid hv hv' hne⟩⟩
    · simp only [update_video_setting, List.mem_filter, decide_eq_true_eq]
      exact ⟨fun h => h.1, fun h => ⟨h, purge_other_vid hv hv' hne⟩⟩

/-- Witness for C4 at a concrete input: updating the width of file aa
records the override, purges the aa-keyed cache entries and keeps the
bb-keyed ones. -/
theorem C4_update_selective_witness :
    (∃ o, alookup (update_video_setting
        ⟨⟨10, 800, "bayer".data, "平衡".data⟩, [],
          [(get_preview_cache_key "aa".data 10 800 "bayer".data "平衡".data, [1]),
           (get_preview_cache_key "bb".data 10 800 "bayer".data "平衡".data, [2])],
          [(get_final_cache_key "aa".data 10 800 "bayer".data "平衡".data, [3]),
           (get_final_cache_key "bb".data 10 800 "bayer".data "平衡".data, [4])],
          none⟩ "aa".data (.width 320)).video_settings "aa".data = some o ∧
        (FieldUpdate.width 320).recorded o) ∧
    (∀ kv ∈ (update_video_setting
        ⟨⟨10, 800, "bayer".data, "平衡".data⟩, [],
          [(get_preview_cache_key "aa".data 10 800 "bayer".data "平衡".data, [1]),
           (get_preview_cache_key "bb".data 10 800 "bayer".data "平衡".data, [2])],
          [(get_final_cache_key "aa".data 10 800 "bayer".data "平衡".data, [3]),
           (get_final_cache_key "bb".data 10 800 "bayer".data "平衡".data, [4])],
          none⟩ "aa".data (.width 320)).preview_cache,
        ¬ ("preview_".data ++ "aa".data ++ ['_']) <+: kv.1) ∧
    (∀ kv ∈ (update_video_setting
        ⟨⟨10, 800, "bayer".data, "平衡".data⟩, [],
          [(get_preview_cache_key "aa".data 10 800 "bayer".data "平衡".data, [1]),
           (get_preview_cache_key "bb".data 10 800 "bayer".data "平衡".data, [2])],
          [(get_final_cache_key "aa".data 10 800 "bayer".data "平衡".data, [3]),
           (get_final_cache_key "bb".data 10 800 "bayer".data "平衡".data, [4])],
          none⟩ "aa".data (.width 320)).final_cache,
        ¬ ("final_".data ++ "aa".data ++ ['_']) <+: kv.1) ∧
    (∀ v' r b, '_' ∉ v' → v' ≠ "aa".data →
        ((("preview_".data ++ v' ++ '_' :: r, b) ∈
            (update_video_setting
        ⟨⟨10, 800, "bayer".data, "平衡".data⟩, [],
          [(get_preview_cache_key "aa".data 10 800 "bayer".data "平衡".data, [1]),
           (get_preview_cache_key "bb".data 10 800 "bayer".data "平衡".data, [2])],
          [(get_final_cache_key "aa".data 10 800 "bayer".data "平衡".data, [3]),
           (get_final_cache_key "bb".data 10 800 "bayer".data "平衡".data, [4])],
          none⟩ "aa".data (.width 320)).preview_cache) ↔
          (("preview_".data ++ v' ++ '_' :: r, b) ∈
            [(get_preview_cache_key "aa".data 10 800 "bayer".data "平衡".data, ([1] : Bytes)),
             (get_preview_cache_key "bb".data 10 800 "bayer".data "平衡".data, [2])])) ∧
        ((("final_".data ++ v' ++ '_' :: r, b) ∈
            (update_video_setting
        ⟨⟨10, 800, "bayer".data, "平衡".data⟩, [],
          [(get_preview_cache_key "aa".data 10 800 "bayer".data "平衡".data, [1]),
           (get_preview_cache_key "bb".data 10 800 "bayer".data "平衡".data, [2])],
          [(get_final_cache_key "aa".data 10 800 "bayer".data "平衡".data, [3]),
           (get_final_cache_key "bb".data 10 800 "bayer".data "平衡".data, [4])],
          none⟩ "aa".data (.width 320)).final_cache) ↔
          (("final_".data ++ v' ++ '_' :: r, b) ∈
            [(get_final_cache_key "aa".data 10 800 "bayer".data "平衡".data, ([3] : Bytes)),
             (get_final_cache_key "bb".data 10 800 "bayer".data "平衡".data, [4])]))) :=
  C4_update_selective
    ⟨⟨10, 800, "bayer".data, "平衡".data⟩, [],
      [(get_preview_cache_key "aa".data 10 800 "bayer".data "平衡".data, [1]),
       (get_preview_cache_key "bb".data 10 800 "bayer".data "平衡".data, [2])],
      [(get_final_cache_key "aa".data 10 800 "bayer".data "平衡".data, [3]),
       (get_final_cache_key "bb".data 10 800 "bayer".data "平衡".data, [4])],
      none⟩ "aa".data (.width 320) (by decide)

/-- C7: absence of the transcoder is fatal, absence of the optimizer is
not.  Without ffmpeg both safe_convert and reencode_gif fail with the
missing-tool message and produce no output (the file system is untouched
and no command is delegated); without gifsicle, gifsicle_optimize returns
normally leaving everything unchanged, and a conversion whose ffmpeg
steps succeed still succeeds. -/
theorem C7_tool_absence (env : ExtEnv) (fs : FS) (src out : PyStr)
    (fps w : Nat) (d : PyStr) (t : Option Nat) (c : PyStr) :
    (env.hasFfmpeg = false →
      safe_convert env fs src out fps w d t c =
        ⟨false, ffmpegMissingMsg, fs, none, none⟩ ∧
      reencode_gif env fs src out fps w d t c =
        ⟨false, ffmpegMissingMsg, fs, none, none⟩) ∧
    (env.hasGifsicle = false → gifsicle_optimize env fs out c = fs) ∧
    (env.hasGifsicle = false → env.hasFfmpeg = true → env.palette1.1 = true →
      env.gifRun.1 = true →
      (safe_convert env fs src out fps w d t c).ok = true ∧
      (safe_convert env fs src out fps w d t c).msg = [] ∧
      (reencode_gif env fs src out fps w d t c).ok = true ∧
      (reencode_gif env fs src out fps w d t c).msg = []) := by
  refine ⟨fun hf => ?_, fun hg => ?_, fun hg hf hp hr => ?_⟩
  · constructor
    · simp [safe_convert, hf]
    · simp [reencode_gif, hf]
  · simp [gifsicle_optimize, hg]
  · refine ⟨?_, ?_, ?_, ?_⟩ <;>
      simp [safe_convert, reencode_gif, hf, hp, hr]

/-- Witness for C7 at a concrete input: with ffmpeg absent, safe_convert
fails with the missing-tool message and leaves the file system empty. -/
theorem C7_tool_absence_witness :
    safe_convert ⟨false, false, (true, []), (true, []), [], (true, []), [], (true, []), none⟩
        [] "in.mp4".data "out.gif".data 10 800 "bayer".data none "平衡".data =
      ⟨false, ffmpegMissingMsg, [], none, none⟩ :=
  ((C7_tool_absence ⟨false, false, (true, []), (true, []), [], (true, []), [], (true, []), none⟩
      [] "in.mp4".data "out.gif".data 10 800 "bayer".data none "平衡".data).1 rfl).1

/-- C10 counterexample: the claim fails as stated.  With a stale file
already present at gif_path + ".opt.gif", a gifsicle run that exits ok
without producing its output file makes os.replace move the stale bytes
onto gif_path, so the input content changes although the optimized output
was not produced. -/
theorem C10_gifsicle_counterexample :
    (ExtEnv.mk true true (true, []) (true, []) [] (true, []) [] (true, []) none).gifsicleOut = none ∧
    (ExtEnv.mk true true (true, []) (true, []) [] (true, []) [] (true, []) none).gifsicleRun.1 = true ∧
    fsGet (gifsicle_optimize
        (ExtEnv.mk true true (true, []) (true, []) [] (true, []) [] (true, []) none)
        [("a.gif.opt.gif".data, [1]), ("a.gif".data, [0])]
        "a.gif".data "平衡".data) "a.gif".data ≠
      fsGet [("a.gif.opt.gif".data, [1]), ("a.gif".data, ([0] : Bytes))] "a.gif".data := by
  decide

/-- C10 (amended): gifsicle_optimize always returns, and the content at
gif_path is unchanged whenever gifsicle is unavailable, the command exits
with failure, or the run produces no output file and no file pre-exists
at gif_path + ".opt.gif"; when the run succeeds and produces output
bytes, gif_path receives exactly those bytes. -/
theorem C10_gifsicle_atomic (env : ExtEnv) (fs : FS) (p c : PyStr) :
    (env.hasGifsicle = false → gifsicle_optimize env fs p c = fs) ∧
    (env.gifsicleRun.1 = false →
      fsGet (gifsicle_optimize env fs p c) p = fsGet fs p) ∧
    (env.gifsicleOut = none → fsGet fs (p ++ ".opt.gif".data) = none →
      fsGet (gifsicle_optimize env fs p c) p = fsGet fs p) ∧
    (∀ b, env.hasGifsicle = true → env.gifsicleRun.1 = true →
      env.gifsicleOut = some b →
      fsGet (gifsicle_optimize env fs p c) p = some b) := by
  have htmp : p ++ ".opt.gif".data ≠ p :=
    fun h => self_ne_append p '.' "opt.gif".data h.symm
  refine ⟨fun hg => ?_, fun hr => ?_, fun ho hs => ?_, fun b hg hr ho => ?_⟩
  · simp [gifsicle_optimize, hg]
  · cases hg : env.hasGifsicle with
    | false => simp [gifsicle_optimize, hg]
    | true =>
      cases ho : env.gifsicleOut with
      | none => simp [gifsicle_optimize, hg, ho, hr]
      | some b =>
        simp only [gifsicle_optimize, hg, hr, ho, Bool.false_and, if_false,
          if_neg (by simp : ¬ (true = false))]
        exact alookup_ainsert_ne _ _ _ _ htmp
  · cases hg : env.hasGifsicle with
    | false => simp [gifsicle_optimize, hg]
    | true =>
      simp [gifsicle_optimize, hg, ho, fsGet] at hs ⊢
      simp [hs]
  · simp only [gifsicle_optimize, hg, ho, if_neg (by simp : ¬ (true = false))]
    rw [show fsGet (fsPut fs (p ++ ".opt.gif".data) b) (p ++ ".opt.gif".data) = some b from
      alookup_ainsert_self _ _ _]
    simp [hr, fsGet, fsPut, alookup_ainsert_self]

/-- Witness for C10 at a concrete input: a successful run that produced
output bytes replaces the content at gif_path with those bytes. -/
theorem C10_gifsicle_atomic_witness :
    fsGet (gifsicle_optimize
        (ExtEnv.mk true true (true, []) (true, []) [] (true, []) [] (true, []) (some [5]))
        [("b.gif".data, [0])] "b.gif".data "平衡".data) "b.gif".data = some [5] :=
  (C10_gifsicle_atomic
      (ExtEnv.mk true true (true, []) (true, []) [] (true, []) [] (true, []) (some [5]))
      [("b.gif".data, [0])] "b.gif".data "平衡".data).2.2.2 [5] rfl rfl rfl

theorem dither_final_default {d : PyStr} (hd : d ∉ validDithers) :
    dither_final d = "bayer".data := by
  simp only [validDithers, List.mem_cons, List.mem_singleton, not_or] at hd
  obtain ⟨h1, h2, h3, h4, h5⟩ := hd
  simp [dither_final, h1, h2, h3, h4, h5]

theorem dither_final_keeps {d : PyStr} (hd : d ∈ validDithers)
    (hn : d ≠ "none".data) : dither_final d = d := by
  simp only [validDithers, List.mem_cons, List.not_mem_nil, or_false] at hd
  rcases hd with rfl | rfl | rfl | rfl | rfl
  · exact absurd rfl hn
  · decide
  · decide
  · decide
  · decide

theorem safe_convert_reaches (env : ExtEnv) (fs : FS) (src out : PyStr)
    (fps w : Nat) (d : PyStr) (t : Option Nat) (c : PyStr)
    (hf : env.hasFfmpeg = true) (hp : env.palette1.1 = true) :
    (safe_convert env fs src out fps w d t c).ditherUsed = some (dither_final d) ∧
    (safe_convert env fs src out fps w d t c).gifCmd =
      some (gif_cmd src (out ++ ".palette.png".data) out (vf_common_mp4 fps w)
        (dither_final d) t) := by
  cases hgr : env.gifRun.1 <;> simp [safe_convert, hf, hp, hgr]

theorem reencode_gif_reaches (env : ExtEnv) (fs : FS) (src out : PyStr)
    (fps w : Nat) (d : PyStr) (t : Option Nat) (c : PyStr)
    (hf : env.hasFfmpeg = true) (hp : env.palette1.1 = true) :
    (reencode_gif env fs src out fps w d t c).ditherUsed = some (dither_final d) ∧
    (reencode_gif env fs src out fps w d t c).gifCmd =
      some (gif_cmd src (out ++ ".palette.png".data) out (vf_common_gif fps w)
        (dither_final d) t) := by
  cases hgr : env.gifRun.1 <;> simp [reencode_gif, hf, hp, hgr]

/-- C8: when a conversion reaches the delegation step, a dithering
selection of none is remapped to bayer (the selection is ignored), any
unrecognized selection is also mapped to bayer, the selections bayer,
sierra2_4a, floyd_steinberg and sierra2 are delegated unchanged, and for
the none selection the delegated ffmpeg argv literally carries the
argument suffix paletteuse equal dither equal bayer. -/
theorem C8_dither_remap (env : ExtEnv) (fs : FS) (src out : PyStr)
    (fps w : Nat) (t : Option Nat) (c : PyStr)
    (hf : env.hasFfmpeg = true) (hp : env.palette1.1 = true) :
    (∀ d, d = "none".data ∨ d ∉ validDithers →
        (safe_convert env fs src out fps w d t c).ditherUsed = some "bayer".data ∧
        (reencode_gif env fs src out fps w d t c).ditherUsed = some "bayer".data) ∧
    (∀ d, d ∈ validDithers → d ≠ "none".data →
        (safe_convert env fs src out fps w d t c).ditherUsed = some d ∧
        (reencode_gif env fs src out fps w d t c).ditherUsed = some d) ∧
    (∃ cmd, (safe_convert env fs src out fps w "none".data t c).gifCmd = some cmd ∧
        ∃ a, a ∈ cmd ∧ "paletteuse=dither=bayer".data <:+ a) := by
  refine ⟨fun d hd => ?_, fun d hd hn => ?_, ?_⟩
  · have hdf : dither_final d = "bayer".data := by
      rcases hd with rfl | hd
      · decide
      · exact dither_final_default hd
    rw [(safe_convert_reaches env fs src out fps w d t c hf hp).1,
      (reencode_gif_reaches env fs src out fps w d t c hf hp).1, hdf]
    exact ⟨rfl, rfl⟩
  · have hdf := dither_final_keeps hd hn
    rw [(safe_convert_reaches env fs src out fps w d t c hf hp).1,
      (reencode_gif_reaches env fs src out fps w d t c hf hp).1, hdf]
    exact ⟨rfl, rfl⟩
  · refine ⟨_, (safe_convert_reaches env fs src out fps w "none".data t c hf hp).2, ?_⟩
    refine ⟨vf_common_mp4 fps w ++ "[x];[x][1:v]paletteuse=dither=".data ++
      dither_final "none".data, ?_, ?_⟩
    · unfold gif_cmd
      cases isTrim t <;> simp
    · refine ⟨vf_common_mp4 fps w ++ "[x];[x][1:v]".data, ?_⟩
      simp only [List.append_assoc]
      congr 1

/-- Witness for C8 at a concrete input: with the tools available and the
palette step succeeding, a none selection is delegated as bayer by both
conversion functions. -/
theorem C8_dither_remap_witness :
    (safe_convert (ExtEnv.mk true true (true, []) (true, []) [] (true, []) [] (true, []) none)
        [] "in.mp4".data "out.gif".data 10 800 "none".data none "平衡".data).ditherUsed =
      some "bayer".data ∧
    (reencode_gif (ExtEnv.mk true true (true, []) (true, []) [] (true, []) [] (true, []) none)
        [] "in.mp4".data "out.gif".data 10 800 "none".data none "平衡".data).ditherUsed =
      some "bayer".data :=
  (C8_dither_remap (ExtEnv.mk true true (true, []) (true, []) [] (true, []) [] (true, []) none)
      [] "in.mp4".data "out.gif".data 10 800 none "平衡".data rfl rfl).1
    "none".data (Or.inl rfl)

/-- C9: the bulk-export archive carries exactly one entry per uploaded
file whose final result is cached under its current effective-settings
key, named by the stem of the original filename plus the gif extension
and carrying the cached bytes; uncached files are omitted, and with no
cached file no archive is produced. -/
theorem C9_zip_archive (g : Settings) (vs : List (PyStr × Override))
    (cache : List (PyStr × Bytes)) (files : List UpFile) :
    (zip_all_entries g vs cache files).length =
      files.countP (fun f => (alookup cache (fileFinalKey g vs f)).isSome) ∧
    (∀ f ∈ files, ∀ b, alookup cache (fileFinalKey g vs f) = some b →
        (stem f.name ++ ".gif".data, b) ∈ zip_all_entries g vs cache files) ∧
    (∀ e ∈ zip_all_entries g vs cache files, ∃ f ∈ files,
        alookup cache (fileFinalKey g vs f) = some e.2 ∧
        e.1 = stem f.name ++ ".gif".data) ∧
    ((∀ f ∈ files, alookup cache (fileFinalKey g vs f) = none) →
        build_zip_all_bytes g vs cache files = none) ∧
    ((∃ f ∈ files, (alookup cache (fileFinalKey g vs f)).isSome) →
        build_zip_all_bytes g vs cache files =
          some (zip_all_entries g vs cache files)) := by
  refine ⟨?_, ?_, ?_, ?_, ?_⟩
  · induction files with
    | nil => simp [zip_all_entries]
    | cons f fl ih =>
      simp only [zip_all_entries, List.filterMap_cons, List.countP_cons] at ih ⊢
      cases h : alookup cache (fileFinalKey g vs f) <;> simp [h, ih]
  · intro f hf b hb
    exact List.mem_filterMap.mpr ⟨f, hf, by simp [hb]⟩
  · intro e he
    obtain ⟨f, hf, hfe⟩ := List.mem_filterMap.mp he
    cases h : alookup cache (fileFinalKey g vs f) with
    | none => rw [h] at hfe; simp at hfe
    | some b =>
      rw [h] at hfe
      simp only [Option.map_some'] at hfe
      obtain rfl := Option.some.inj hfe
      exact ⟨f, hf, by simp [h]⟩
  · intro h
    have hz : zip_all_entries g vs cache files = [] := by
      apply List.filterMap_eq_nil_iff.mpr
      intro f hf
      simp [h f hf]
    simp [build_zip_all_bytes, hz]
  · rintro ⟨f, hf, hsome⟩
    obtain ⟨b, hb⟩ := Option.isSome_iff_exists.mp hsome
    have hmem : (stem f.name ++ ".gif".data, b) ∈ zip_all_entries g vs cache files :=
      List.mem_filterMap.mpr ⟨f, hf, by simp [hb]⟩
    have hne := List.ne_nil_of_mem hmem
    cases hz : zip_all_entries g vs cache files with
    | nil => exact absurd hz hne
    | cons x xs => simp [build_zip_all_bytes, hz]

/-- Witness for C9 at a concrete input: an uploaded file whose final key
is cached contributes its stem plus gif entry with the cached bytes. -/
theorem C9_zip_archive_witness :
    (stem "clip.mp4".data ++ ".gif".data, ([9] : Bytes)) ∈
      zip_all_entries ⟨10, 800, "bayer".data, "平衡".data⟩ []
        [(fileFinalKey ⟨10, 800, "bayer".data, "平衡".data⟩ []
            ⟨"clip.mp4".data, "aa".data⟩, [9])]
        [⟨"clip.mp4".data, "aa".data⟩] :=
  (C9_zip_archive ⟨10, 800, "bayer".data, "平衡".data⟩ []
      [(fileFinalKey ⟨10, 800, "bayer".data, "平衡".data⟩ []
          ⟨"clip.mp4".data, "aa".data⟩, [9])]
      [⟨"clip.mp4".data, "aa".data⟩]).2.1
    ⟨"clip.mp4".data, "aa".data⟩ (by simp) [9] (by simp [alookup])

end GifApp
